import Mathlib

/- A Lean model of the baby-tracker bot's database layer and chat handlers
   (src/main.py).  Tables are lists of rows in insertion (rowid) order;
   AUTOINCREMENT primary keys are modelled by per-table next-id counters.
   TIMESTAMP columns and datetime.now() values are seconds since the epoch
   (Nat); DATE columns and datetime.date values in the database are civil
   day numbers (Int).  A SQL one-row lookup (fetchone) returns the first
   row in table order; ORDER BY t DESC LIMIT 1 returns a row with maximal
   t.  Each handler invocation receives the current time as an explicit
   parameter. -/

structure ChildRow where
  id : Nat
  chat_id : Nat
  first_name : String
  last_name : Option String
  gender : String
  birth_date : Int
  gestation_weeks : Nat
  gestation_days : Nat
  birth_weight : ℚ
  birth_height : Nat
  registered_at : Nat
  deriving DecidableEq

structure FeedingRow where
  id : Nat
  chat_id : Nat
  child_id : Nat
  start_time : Nat
  end_time : Option Nat
  prepared_ml : Option Int
  total_eaten_ml : Option Int
  is_paused : Nat
  paused_at : Option Nat
  pauses_count : Nat
  total_pause_duration : Nat
  deriving DecidableEq

structure MeasurementRow where
  id : Nat
  child_id : Nat
  weight : ℚ
  height : Nat
  measurement_date : Int
  age_days : Int
  recorded_at : Nat
  deriving DecidableEq

structure ReminderRow where
  id : Nat
  chat_id : Nat
  child_id : Nat
  reminder_type : String
  next_reminder : Int
  frequency_days : Nat
  is_active : Nat
  deriving DecidableEq

structure SleepRow where
  id : Nat
  child_id : Nat
  sleep_start : Nat
  sleep_end : Option Nat
  duration_minutes : Option Nat
  notes : Option String
  deriving DecidableEq

structure WakeRow where
  id : Nat
  child_id : Nat
  wake_start : Nat
  wake_end : Option Nat
  duration_minutes : Option Nat
  notes : Option String
  deriving DecidableEq

structure DB where
  children : List ChildRow
  feedings : List FeedingRow
  measurements : List MeasurementRow
  reminders : List ReminderRow
  sleep_tracker : List SleepRow
  wakefulness_tracker : List WakeRow
  next_child_id : Nat
  next_feeding_id : Nat
  next_measurement_id : Nat
  next_reminder_id : Nat
  next_sleep_id : Nat
  next_wake_id : Nat
  deriving DecidableEq

/-- ORDER BY key DESC LIMIT 1 followed by fetchone: an element of the list
with maximal key (the earliest such element in table order). -/
def latestBy {α : Type} (key : α → Nat) : List α → Option α
  | [] => none
  | x :: xs =>
    match latestBy key xs with
    | none => some x
    | some y => if key x < key y then some y else some x

/-- SELECT * FROM children WHERE chat_id = ? (fetchone). -/
def get_child (db : DB) (chat_id : Nat) : Option ChildRow :=
  db.children.find? (fun r => r.chat_id == chat_id)

/-- INSERT INTO sleep_tracker (child_id, sleep_start) VALUES (?, now);
returns the updated database and lastrowid. -/
def start_sleep (db : DB) (child_id : Nat) (now : Nat) : DB × Nat :=
  ({ db with
      sleep_tracker :=
        db.sleep_tracker ++ [⟨db.next_sleep_id, child_id, now, none, none, none⟩],
      next_sleep_id := db.next_sleep_id + 1 },
   db.next_sleep_id)

/-- SELECT sleep_start FROM sleep_tracker WHERE id = ?; if a row is found,
UPDATE sleep_tracker SET sleep_end = now, duration_minutes = elapsed
minutes WHERE id = ?.  Python's int((end - start).total_seconds() / 60) is
modelled by Nat division, which agrees with it whenever start ≤ now. -/
def end_sleep (db : DB) (sleep_id : Nat) (now : Nat) : DB :=
  match db.sleep_tracker.find? (fun r => r.id == sleep_id) with
  | none => db
  | some row =>
    { db with
        sleep_tracker := db.sleep_tracker.map (fun r =>
          if r.id == sleep_id then
            { r with sleep_end := some now,
                     duration_minutes := some ((now - row.sleep_start) / 60) }
          else r) }

/-- SELECT * FROM sleep_tracker WHERE child_id = ? AND sleep_end IS NULL
ORDER BY sleep_start DESC LIMIT 1 (fetchone). -/
def get_active_sleep (db : DB) (child_id : Nat) : Option SleepRow :=
  latestBy (fun r => r.sleep_start)
    (db.sleep_tracker.filter (fun r => r.child_id == child_id && r.sleep_end.isNone))

/-- INSERT INTO wakefulness_tracker (child_id, wake_start) VALUES (?, now). -/
def start_wakefulness (db : DB) (child_id : Nat) (now : Nat) : DB × Nat :=
  ({ db with
      wakefulness_tracker :=
        db.wakefulness_tracker ++ [⟨db.next_wake_id, child_id, now, none, none, none⟩],
      next_wake_id := db.next_wake_id + 1 },
   db.next_wake_id)

/-- SELECT wake_start FROM wakefulness_tracker WHERE id = ?; if a row is
found, UPDATE wakefulness_tracker SET wake_end = now, duration_minutes =
elapsed minutes WHERE id = ?. -/
def end_wakefulness (db : DB) (wake_id : Nat) (now : Nat) : DB :=
  match db.wakefulness_tracker.find? (fun r => r.id == wake_id) with
  | none => db
  | some row =>
    { db with
        wakefulness_tracker := db.wakefulness_tracker.map (fun r =>
          if r.id == wake_id then
            { r with wake_end := some now,
                     duration_minutes := some ((now - row.wake_start) / 60) }
          else r) }

/-- SELECT * FROM wakefulness_tracker WHERE child_id = ? AND wake_end IS
NULL ORDER BY wake_start DESC LIMIT 1 (fetchone). -/
def get_active_wakefulness (db : DB) (child_id : Nat) : Option WakeRow :=
  latestBy (fun r => r.wake_start)
    (db.wakefulness_tracker.filter (fun r => r.child_id == child_id && r.wake_end.isNone))

/-- SELECT COUNT, SUM(duration_minutes), AVG(duration_minutes) FROM
sleep_tracker WHERE child_id = ? AND DATE(sleep_start) = DATE('now') AND
sleep_end IS NOT NULL.  SUM and AVG skip NULL values and return NULL when
no non-NULL value exists; AVG is exact rational arithmetic standing for
SQLite's floating-point average. -/
def get_sleep_stats_today (db : DB) (child_id : Nat) (today : Nat) :
    Nat × Option Nat × Option ℚ :=
  let rows := db.sleep_tracker.filter (fun r =>
    r.child_id == child_id && r.sleep_start / 86400 == today && !r.sleep_end.isNone)
  let vals := rows.filterMap (fun r => r.duration_minutes)
  (rows.length,
   if vals.isEmpty then none else some vals.sum,
   if vals.isEmpty then none else some ((vals.sum : ℚ) / (vals.length : ℚ)))

/-- SELECT COUNT, SUM(duration_minutes), AVG(duration_minutes) FROM
wakefulness_tracker WHERE child_id = ? AND DATE(wake_start) = DATE('now')
AND wake_end IS NOT NULL. -/
def get_wakefulness_stats_today (db : DB) (child_id : Nat) (today : Nat) :
    Nat × Option Nat × Option ℚ :=
  let rows := db.wakefulness_tracker.filter (fun r =>
    r.child_id == child_id && r.wake_start / 86400 == today && !r.wake_end.isNone)
  let vals := rows.filterMap (fun r => r.duration_minutes)
  (rows.length,
   if vals.isEmpty then none else some vals.sum,
   if vals.isEmpty then none else some ((vals.sum : ℚ) / (vals.length : ℚ)))

/-- Handler for the start_sleep button: requires a registered child, does
nothing if a sleep is already active, force-closes an active wakefulness,
then inserts a new open sleep interval. -/
def start_sleep_callback (db : DB) (chat_id : Nat) (now : Nat) : DB :=
  match get_child db chat_id with
  | none => db
  | some child =>
    match get_active_sleep db child.id with
    | some _ => db
    | none =>
      let db1 :=
        match get_active_wakefulness db child.id with
        | some active_wake => end_wakefulness db active_wake.id now
        | none => db
      (start_sleep db1 child.id now).1

/-- Handler for the end_sleep button: requires a registered child and an
active sleep, which it ends. -/
def end_sleep_callback (db : DB) (chat_id : Nat) (now : Nat) : DB :=
  match get_child db chat_id with
  | none => db
  | some child =>
    match get_active_sleep db child.id with
    | none => db
    | some active_sleep => end_sleep db active_sleep.id now

/-- Handler for the start_wake button: requires a registered child, does
nothing if a wakefulness is already active, force-closes an active sleep,
then inserts a new open wakefulness interval. -/
def start_wake_callback (db : DB) (chat_id : Nat) (now : Nat) : DB :=
  match get_child db chat_id with
  | none => db
  | some child =>
    match get_active_wakefulness db child.id with
    | some _ => db
    | none =>
      let db1 :=
        match get_active_sleep db child.id with
        | some active_sleep => end_sleep db active_sleep.id now
        | none => db
      (start_wakefulness db1 child.id now).1

/-- Handler for the end_wake button: requires a registered child and an
active wakefulness, which it ends. -/
def end_wake_callback (db : DB) (chat_id : Nat) (now : Nat) : DB :=
  match get_child db chat_id with
  | none => db
  | some child =>
    match get_active_wakefulness db child.id with
    | none => db
    | some active_wake => end_wakefulness db active_wake.id now

/-- INSERT INTO feedings (chat_id, child_id, start_time) VALUES (?, ?, now);
returns the updated database and lastrowid.  The remaining columns take
their schema defaults (NULL, is_paused 0, pauses_count 0,
total_pause_duration 0). -/
def start_feeding (db : DB) (chat_id : Nat) (child_id : Nat) (now : Nat) : DB × Nat :=
  ({ db with
      feedings :=
        db.feedings ++ [⟨db.next_feeding_id, chat_id, child_id, now, none, none, none, 0, none, 0, 0⟩],
      next_feeding_id := db.next_feeding_id + 1 },
   db.next_feeding_id)

/-- UPDATE feedings SET prepared_ml = ? WHERE id = ?. -/
def update_feeding_prepared (db : DB) (feeding_id : Nat) (prepared_ml : Int) : DB :=
  { db with
      feedings := db.feedings.map (fun r =>
        if r.id == feeding_id then { r with prepared_ml := some prepared_ml } else r) }

/-- UPDATE feedings SET is_paused = 1, paused_at = now, pauses_count =
pauses_count + 1 WHERE id = ?. -/
def pause_feeding (db : DB) (feeding_id : Nat) (now : Nat) : DB :=
  { db with
      feedings := db.feedings.map (fun r =>
        if r.id == feeding_id then
          { r with is_paused := 1, paused_at := some now,
                   pauses_count := r.pauses_count + 1 }
        else r) }

/-- SELECT paused_at FROM feedings WHERE id = ?; when the row exists and
its paused_at is non-NULL (Python truthiness of a timestamp string),
UPDATE feedings SET is_paused = 0, paused_at = NULL,
total_pause_duration = total_pause_duration + elapsed seconds WHERE id = ?. -/
def resume_feeding (db : DB) (feeding_id : Nat) (now : Nat) : DB :=
  match db.feedings.find? (fun r => r.id == feeding_id) with
  | none => db
  | some row =>
    match row.paused_at with
    | none => db
    | some paused_at =>
      { db with
          feedings := db.feedings.map (fun r =>
            if r.id == feeding_id then
              { r with is_paused := 0, paused_at := none,
                       total_pause_duration := r.total_pause_duration + (now - paused_at) }
            else r) }

/-- UPDATE feedings SET total_eaten_ml = COALESCE(total_eaten_ml, 0) + ?
WHERE id = ?. -/
def add_eaten_ml (db : DB) (feeding_id : Nat) (eaten_ml : Int) : DB :=
  { db with
      feedings := db.feedings.map (fun r =>
        if r.id == feeding_id then
          { r with total_eaten_ml := some (r.total_eaten_ml.getD 0 + eaten_ml) }
        else r) }

/-- UPDATE feedings SET end_time = now WHERE id = ?. -/
def finish_feeding (db : DB) (feeding_id : Nat) (now : Nat) : DB :=
  { db with
      feedings := db.feedings.map (fun r =>
        if r.id == feeding_id then { r with end_time := some now } else r) }

/-- SELECT * FROM feedings WHERE chat_id = ? AND end_time IS NULL ORDER BY
start_time DESC LIMIT 1 (fetchone). -/
def get_active_feeding (db : DB) (chat_id : Nat) : Option FeedingRow :=
  latestBy (fun r => r.start_time)
    (db.feedings.filter (fun r => r.chat_id == chat_id && r.end_time.isNone))

/-- Handler for the start_feeding button: requires a registered child and
refuses to start while a feeding is already active for the chat. -/
def start_feeding_callback (db : DB) (chat_id : Nat) (now : Nat) : DB :=
  match get_child db chat_id with
  | none => db
  | some child =>
    match get_active_feeding db chat_id with
    | some _ => db
    | none => (start_feeding db chat_id child.id now).1

/-- Handler for the pause_feeding button. -/
def pause_feeding_callback (db : DB) (chat_id : Nat) (now : Nat) : DB :=
  match get_active_feeding db chat_id with
  | none => db
  | some feeding =>
    if feeding.is_paused != 0 then db
    else pause_feeding db feeding.id now

/-- Handler for the resume_feeding button: requires an active feeding whose
is_paused flag is truthy. -/
def resume_feeding_callback (db : DB) (chat_id : Nat) (now : Nat) : DB :=
  match get_active_feeding db chat_id with
  | none => db
  | some feeding =>
    if feeding.is_paused == 0 then db
    else resume_feeding db feeding.id now

/-- Handler for the quick add_5 .. add_100 buttons; eaten_ml is the amount
the pressed button maps to. -/
def add_eaten_quick_callback (db : DB) (chat_id : Nat) (eaten_ml : Int) : DB :=
  match get_active_feeding db chat_id with
  | none => db
  | some feeding => add_eaten_ml db feeding.id eaten_ml

/-- Handler for the finish_feeding button. -/
def finish_feeding_callback (db : DB) (chat_id : Nat) (now : Nat) : DB :=
  match get_active_feeding db chat_id with
  | none => db
  | some feeding => finish_feeding db feeding.id now

/-- Handler for the cancel_feeding button: DELETE FROM feedings WHERE id =
the active feeding's id. -/
def cancel_feeding_callback (db : DB) (chat_id : Nat) : DB :=
  match get_active_feeding db chat_id with
  | none => db
  | some feeding =>
    { db with feedings := db.feedings.filter (fun r => !(r.id == feeding.id)) }

/-- Handler for a reply in the waiting_for_custom_amount state.  The reply
text is modelled by its Python int() parse: none stands for a reply that
raises ValueError.  Returns the new database and whether the conversation
is still in the waiting_for_custom_amount state afterwards (state.clear()
yields false; an early return that keeps the state yields true). -/
def process_custom_amount (db : DB) (chat_id : Nat) (parsed : Option Int) : DB × Bool :=
  match get_active_feeding db chat_id with
  | none => (db, false)
  | some feeding =>
    match parsed with
    | none => (db, true)
    | some eaten_ml =>
      if eaten_ml ≤ 0 then (db, true)
      else if eaten_ml > 500 then (db, true)
      else
        let db1 := add_eaten_ml db feeding.id eaten_ml
        match get_child db chat_id with
        | none => (db1, false)
        | some _ => (db1, false)

/-- Data collected by the registration wizard and passed to
Database.register_child. -/
structure ChildData where
  first_name : String
  last_name : Option String
  gender : String
  birth_date : Int
  gestation_weeks : Nat
  gestation_days : Nat
  birth_weight : ℚ
  birth_height : Nat
  deriving DecidableEq

/-- Outcome oracle for the cursor.execute calls of a mutation method: entry
i tells whether the (i+1)-th write raises (some error) or succeeds (none);
missing entries mean success.  The sqlite3 error that a write raises. -/
abbrev ExecOracle := List (Option String)

/-- Database.register_child: inside one transaction, INSERT the child, then
INSERT the three weight_height reminders (frequencies 1, 7 and 30 days,
next_reminder today); commit on success.  Any raising write rolls the
connection back — the caller's stored database is unchanged — and the
exception propagates as the Except error. -/
def register_child (db : DB) (chat_id : Nat) (child_data : ChildData)
    (today : Int) (now : Nat) (oracle : ExecOracle) : DB × Except String Nat :=
  match oracle.getD 0 none with
  | some e => (db, .error e)
  | none =>
    let child_id := db.next_child_id
    let pending1 : DB :=
      { db with
          children := db.children ++
            [⟨child_id, chat_id, child_data.first_name, child_data.last_name,
              child_data.gender, child_data.birth_date, child_data.gestation_weeks,
              child_data.gestation_days, child_data.birth_weight,
              child_data.birth_height, now⟩],
          next_child_id := db.next_child_id + 1 }
    match oracle.getD 1 none with
    | some e => (db, .error e)
    | none =>
      let pending2 : DB :=
        { pending1 with
            reminders := pending1.reminders ++
              [⟨pending1.next_reminder_id, chat_id, child_id, "weight_height", today, 1, 1⟩],
            next_reminder_id := pending1.next_reminder_id + 1 }
      match oracle.getD 2 none with
      | some e => (db, .error e)
      | none =>
        let pending3 : DB :=
          { pending2 with
              reminders := pending2.reminders ++
                [⟨pending2.next_reminder_id, chat_id, child_id, "weight_height", today, 7, 1⟩],
              next_reminder_id := pending2.next_reminder_id + 1 }
        match oracle.getD 3 none with
        | some e => (db, .error e)
        | none =>
          let pending4 : DB :=
            { pending3 with
                reminders := pending3.reminders ++
                  [⟨pending3.next_reminder_id, chat_id, child_id, "weight_height", today, 30, 1⟩],
                next_reminder_id := pending3.next_reminder_id + 1 }
          (pending4, .ok child_id)

/-- Database.add_measurement: SELECT the child's birth_date; when the child
exists, INSERT the measurement (age_days = today minus birth_date) and
UPDATE the active weight_height reminders to today + frequency_days;
commit on success.  Any raising write rolls back and re-raises. -/
def add_measurement (db : DB) (child_id : Nat) (weight : ℚ) (height : Nat)
    (today : Int) (now : Nat) (oracle : ExecOracle) : DB × Except String Unit :=
  match db.children.find? (fun r => r.id == child_id) with
  | none => (db, .ok ())
  | some row =>
    let age_days := today - row.birth_date
    match oracle.getD 0 none with
    | some e => (db, .error e)
    | none =>
      let pending1 : DB :=
        { db with
            measurements := db.measurements ++
              [⟨db.next_measurement_id, child_id, weight, height, today, age_days, now⟩],
            next_measurement_id := db.next_measurement_id + 1 }
      match oracle.getD 1 none with
      | some e => (db, .error e)
      | none =>
        let pending2 : DB :=
          { pending1 with
              reminders := pending1.reminders.map (fun r =>
                if r.child_id == child_id && r.reminder_type == "weight_height"
                    && r.is_active == 1 then
                  { r with next_reminder := today + r.frequency_days }
                else r) }
        (pending2, .ok ())

/-- A Python datetime.date value: calendar year, month and day. -/
structure PyDate where
  year : Int
  month : Int
  day : Int
  deriving DecidableEq

/-- Gregorian leap-year rule, as implemented by Python's datetime. -/
def isLeapYear (y : Int) : Bool :=
  (y % 4 == 0 && y % 100 != 0) || y % 400 == 0

/-- Number of days in a month of the Gregorian calendar. -/
def daysInMonth (y m : Int) : Int :=
  if m == 2 then (if isLeapYear y then 29 else 28)
  else if m == 4 || m == 6 || m == 9 || m == 11 then 30
  else 31

/-- Day-of-month of (datetime(y, m, 1) - timedelta(days=1)): the length of
the month preceding month m of year y. -/
def predMonthDay (y m : Int) : Int :=
  if m == 1 then daysInMonth (y - 1) 12 else daysInMonth y (m - 1)

/-- A date is a value Python's datetime.date accepts. -/
def validDate (d : PyDate) : Prop :=
  1 ≤ d.month ∧ d.month ≤ 12 ∧ 1 ≤ d.day ∧ d.day ≤ daysInMonth d.year d.month

instance (d : PyDate) : Decidable (validDate d) := by
  unfold validDate; infer_instance

/-- Lexicographic order on dates: d occurs no later than e. -/
def dateLE (d e : PyDate) : Prop :=
  d.year < e.year ∨ (d.year = e.year ∧
    (d.month < e.month ∨ (d.month = e.month ∧ d.day ≤ e.day)))

instance (d e : PyDate) : Decidable (dateLE d e) := by
  unfold dateLE; infer_instance

/-- calculate_age from src/main.py, with datetime.now().date() passed in as
today: naive field-wise subtraction, borrowing from the month preceding
today's month when the day difference is negative, then from the year when
the month difference is negative. -/
def calculate_age (today : PyDate) (birth : PyDate) : Int × Int × Int :=
  let years := today.year - birth.year
  let months := today.month - birth.month
  let days := today.day - birth.day
  let md : Int × Int :=
    if days < 0 then
      let lm : Int × Int :=
        if today.month == 1 then (12, today.year - 1)
        else (today.month - 1, today.year)
      let days_in_last_month := predMonthDay lm.2 (lm.1 % 12 + 1)
      (months - 1, days_in_last_month + days)
    else (months, days)
  let ym : Int × Int :=
    if md.1 < 0 then (years - 1, 12 + md.1) else (years, md.1)
  (ym.1, ym.2, md.2)

/-- Number of open (sleep_end NULL) sleep intervals a child has. -/
def openSleepCount (db : DB) (child_id : Nat) : Nat :=
  db.sleep_tracker.countP (fun r => r.child_id == child_id && r.sleep_end.isNone)

/-- Number of open (wake_end NULL) wakefulness intervals a child has. -/
def openWakeCount (db : DB) (child_id : Nat) : Nat :=
  db.wakefulness_tracker.countP (fun r => r.child_id == child_id && r.wake_end.isNone)

/-- Number of open (end_time NULL) feedings a chat has. -/
def openFeedingCount (db : DB) (chat_id : Nat) : Nat :=
  db.feedings.countP (fun r => r.chat_id == chat_id && r.end_time.isNone)

theorem latestBy_eq_none {α : Type} {key : α → Nat} {l : List α} :
    latestBy key l = none ↔ l = [] := by
  cases l with
  | nil => simp [latestBy]
  | cons x xs =>
    constructor
    · intro h
      exfalso
      unfold latestBy at h
      cases hx : latestBy key xs with
      | none => rw [hx] at h; exact Option.noConfusion h
      | some y =>
        rw [hx] at h
        dsimp only at h
        split at h <;> exact Option.noConfusion h
    · intro h
      exact absurd h (List.cons_ne_nil x xs)

theorem latestBy_mem {α : Type} {key : α → Nat} {l : List α} {a : α}
    (h : latestBy key l = some a) : a ∈ l := by
  induction l with
  | nil => simp [latestBy] at h
  | cons x xs ih =>
    simp only [latestBy] at h
    cases hx : latestBy key xs with
    | none =>
      rw [hx] at h
      injection h with h2
      subst h2
      exact List.mem_cons_self x xs
    | some y =>
      rw [hx] at h
      dsimp only at h
      split at h
      · injection h with h2
        subst h2
        exact List.mem_cons_of_mem x (ih hx)
      · injection h with h2
        subst h2
        exact List.mem_cons_self x xs

theorem eq_of_countP_le_one {α : Type} {p : α → Bool} {l : List α} {a b : α}
    (hc : l.countP p ≤ 1) (ha : a ∈ l) (hpa : p a = true)
    (hb : b ∈ l) (hpb : p b = true) : b = a := by
  induction l with
  | nil => cases ha
  | cons x xs ih =>
    rw [List.countP_cons] at hc
    by_cases hpx : p x = true
    · rw [if_pos hpx] at hc
      have hzero : xs.countP p = 0 := by omega
      have hnone : ∀ c ∈ xs, ¬ p c = true := List.countP_eq_zero.mp hzero
      have ha' : a = x := by
        rcases List.mem_cons.mp ha with h | h
        · exact h
        · exact absurd hpa (hnone a h)
      have hb' : b = x := by
        rcases List.mem_cons.mp hb with h | h
        · exact h
        · exact absurd hpb (hnone b h)
      rw [ha', hb']
    · have hx0 : p x = false := by
        cases hpx2 : p x
        · rfl
        · exact absurd hpx2 hpx
      rw [hx0] at hc
      simp only [if_neg Bool.false_ne_true] at hc
      have ha' : a ∈ xs := by
        rcases List.mem_cons.mp ha with h | h
        · rw [h] at hpa; rw [hpa] at hx0; cases hx0
        · exact h
      have hb' : b ∈ xs := by
        rcases List.mem_cons.mp hb with h | h
        · rw [h] at hpb; rw [hpb] at hx0; cases hx0
        · exact h
      exact ih (by omega) ha' hb'

theorem countP_map_le_of {α : Type} {p : α → Bool} {f : α → α} {l : List α}
    (h : ∀ a ∈ l, p (f a) = true → p a = true) :
    (l.map f).countP p ≤ l.countP p := by
  induction l with
  | nil => simp
  | cons x xs ih =>
    simp only [List.map_cons, List.countP_cons]
    have hx := h x (List.mem_cons_self x xs)
    have hxs : ∀ a ∈ xs, p (f a) = true → p a = true :=
      fun a ha => h a (List.mem_cons_of_mem x ha)
    have := ih hxs
    by_cases hfx : p (f x) = true
    · rw [if_pos hfx, if_pos (hx hfx)]; omega
    · have : p (f x) = false := by
        cases h2 : p (f x)
        · rfl
        · exact absurd h2 hfx
      rw [this]
      simp only [if_neg Bool.false_ne_true]
      split <;> omega

theorem countP_map_eq_of {α : Type} {p : α → Bool} {f : α → α} {l : List α}
    (h : ∀ a ∈ l, p (f a) = p a) :
    (l.map f).countP p = l.countP p := by
  induction l with
  | nil => simp
  | cons x xs ih =>
    simp only [List.map_cons, List.countP_cons]
    rw [h x (List.mem_cons_self x xs),
        ih (fun a ha => h a (List.mem_cons_of_mem x ha))]

theorem get_active_sleep_eq_none_iff {db : DB} {c : Nat} :
    get_active_sleep db c = none ↔ openSleepCount db c = 0 := by
  unfold get_active_sleep openSleepCount
  rw [latestBy_eq_none, List.countP_eq_length_filter]
  constructor
  · intro h; rw [h]; rfl
  · intro h; exact List.length_eq_zero.mp h

theorem get_active_wakefulness_eq_none_iff {db : DB} {c : Nat} :
    get_active_wakefulness db c = none ↔ openWakeCount db c = 0 := by
  unfold get_active_wakefulness openWakeCount
  rw [latestBy_eq_none, List.countP_eq_length_filter]
  constructor
  · intro h; rw [h]; rfl
  · intro h; exact List.length_eq_zero.mp h

theorem get_active_feeding_eq_none_iff {db : DB} {chat : Nat} :
    get_active_feeding db chat = none ↔ openFeedingCount db chat = 0 := by
  unfold get_active_feeding openFeedingCount
  rw [latestBy_eq_none, List.countP_eq_length_filter]
  constructor
  · intro h; rw [h]; rfl
  · intro h; exact List.length_eq_zero.mp h

theorem get_active_sleep_spec {db : DB} {c : Nat} {a : SleepRow}
    (h : get_active_sleep db c = some a) :
    a ∈ db.sleep_tracker ∧ a.child_id = c ∧ a.sleep_end = none := by
  unfold get_active_sleep at h
  have hm := latestBy_mem h
  rw [List.mem_filter] at hm
  obtain ⟨h1, h2⟩ := hm
  rw [Bool.and_eq_true] at h2
  exact ⟨h1, eq_of_beq h2.1, Option.isNone_iff_eq_none.mp h2.2⟩

theorem get_active_wakefulness_spec {db : DB} {c : Nat} {a : WakeRow}
    (h : get_active_wakefulness db c = some a) :
    a ∈ db.wakefulness_tracker ∧ a.child_id = c ∧ a.wake_end = none := by
  unfold get_active_wakefulness at h
  have hm := latestBy_mem h
  rw [List.mem_filter] at hm
  obtain ⟨h1, h2⟩ := hm
  rw [Bool.and_eq_true] at h2
  exact ⟨h1, eq_of_beq h2.1, Option.isNone_iff_eq_none.mp h2.2⟩

theorem get_active_feeding_spec {db : DB} {chat : Nat} {a : FeedingRow}
    (h : get_active_feeding db chat = some a) :
    a ∈ db.feedings ∧ a.chat_id = chat ∧ a.end_time = none := by
  unfold get_active_feeding at h
  have hm := latestBy_mem h
  rw [List.mem_filter] at hm
  obtain ⟨h1, h2⟩ := hm
  rw [Bool.and_eq_true] at h2
  exact ⟨h1, eq_of_beq h2.1, Option.isNone_iff_eq_none.mp h2.2⟩

theorem end_wakefulness_sleep_tracker (db : DB) (wid now : Nat) :
    (end_wakefulness db wid now).sleep_tracker = db.sleep_tracker := by
  unfold end_wakefulness
  cases h : db.wakefulness_tracker.find? (fun r => r.id == wid) <;> rfl

theorem end_sleep_wakefulness_tracker (db : DB) (sid now : Nat) :
    (end_sleep db sid now).wakefulness_tracker = db.wakefulness_tracker := by
  unfold end_sleep
  cases h : db.sleep_tracker.find? (fun r => r.id == sid) <;> rfl

theorem openSleepCount_end_wakefulness (db : DB) (wid now c : Nat) :
    openSleepCount (end_wakefulness db wid now) c = openSleepCount db c := by
  unfold openSleepCount
  rw [end_wakefulness_sleep_tracker]

theorem openWakeCount_end_sleep (db : DB) (sid now c : Nat) :
    openWakeCount (end_sleep db sid now) c = openWakeCount db c := by
  unfold openWakeCount
  rw [end_sleep_wakefulness_tracker]

theorem openWakeCount_end_wakefulness_le (db : DB) (wid now c : Nat) :
    openWakeCount (end_wakefulness db wid now) c ≤ openWakeCount db c := by
  unfold end_wakefulness
  cases h : db.wakefulness_tracker.find? (fun r => r.id == wid) with
  | none => exact le_refl _
  | some row =>
    unfold openWakeCount
    dsimp only
    apply countP_map_le_of
    intro a _ hpa
    by_cases hid : (a.id == wid) = true
    · rw [if_pos hid] at hpa
      simp at hpa
    · rw [if_neg hid] at hpa
      exact hpa

theorem openSleepCount_end_sleep_le (db : DB) (sid now c : Nat) :
    openSleepCount (end_sleep db sid now) c ≤ openSleepCount db c := by
  unfold end_sleep
  cases h : db.sleep_tracker.find? (fun r => r.id == sid) with
  | none => exact le_refl _
  | some row =>
    unfold openSleepCount
    dsimp only
    apply countP_map_le_of
    intro a _ hpa
    by_cases hid : (a.id == sid) = true
    · rw [if_pos hid] at hpa
      simp at hpa
    · rw [if_neg hid] at hpa
      exact hpa

theorem openWakeCount_end_wakefulness_active {db : DB} {c : Nat} {aw : WakeRow} {now : Nat}
    (h : get_active_wakefulness db c = some aw)
    (hle : openWakeCount db c ≤ 1) :
    openWakeCount (end_wakefulness db aw.id now) c = 0 := by
  obtain ⟨hmem, hchild, hopen⟩ := get_active_wakefulness_spec h
  unfold end_wakefulness
  cases hf : db.wakefulness_tracker.find? (fun r => r.id == aw.id) with
  | none =>
    exfalso
    rw [List.find?_eq_none] at hf
    exact hf aw hmem (by simp)
  | some row =>
    unfold openWakeCount
    dsimp only
    rw [List.countP_eq_zero]
    intro b hb
    rw [List.mem_map] at hb
    obtain ⟨r, hr, hfr⟩ := hb
    subst hfr
    by_cases hid : (r.id == aw.id) = true
    · rw [if_pos hid]; simp
    · rw [if_neg hid]
      intro hpr
      have heq : r = aw :=
        eq_of_countP_le_one hle hmem (by simp [hchild, hopen]) hr hpr
      rw [heq] at hid
      exact hid (by simp)

theorem openSleepCount_end_sleep_active {db : DB} {c : Nat} {as : SleepRow} {now : Nat}
    (h : get_active_sleep db c = some as)
    (hle : openSleepCount db c ≤ 1) :
    openSleepCount (end_sleep db as.id now) c = 0 := by
  obtain ⟨hmem, hchild, hopen⟩ := get_active_sleep_spec h
  unfold end_sleep
  cases hf : db.sleep_tracker.find? (fun r => r.id == as.id) with
  | none =>
    exfalso
    rw [List.find?_eq_none] at hf
    exact hf as hmem (by simp)
  | some row =>
    unfold openSleepCount
    dsimp only
    rw [List.countP_eq_zero]
    intro b hb
    rw [List.mem_map] at hb
    obtain ⟨r, hr, hfr⟩ := hb
    subst hfr
    by_cases hid : (r.id == as.id) = true
    · rw [if_pos hid]; simp
    · rw [if_neg hid]
      intro hpr
      have heq : r = as :=
        eq_of_countP_le_one hle hmem (by simp [hchild, hopen]) hr hpr
      rw [heq] at hid
      exact hid (by simp)

theorem openSleepCount_start_sleep (db : DB) (c0 now c : Nat) :
    openSleepCount (start_sleep db c0 now).1 c
      = openSleepCount db c + (if c0 = c then 1 else 0) := by
  unfold start_sleep openSleepCount
  dsimp only
  rw [List.countP_append]
  congr 1
  by_cases hc : c0 = c
  · rw [if_pos hc]
    simp [List.countP_cons, hc]
  · rw [if_neg hc]
    simp [List.countP_cons, hc]

theorem openWakeCount_start_wakefulness (db : DB) (c0 now c : Nat) :
    openWakeCount (start_wakefulness db c0 now).1 c
      = openWakeCount db c + (if c0 = c then 1 else 0) := by
  unfold start_wakefulness openWakeCount
  dsimp only
  rw [List.countP_append]
  congr 1
  by_cases hc : c0 = c
  · rw [if_pos hc]
    simp [List.countP_cons, hc]
  · rw [if_neg hc]
    simp [List.countP_cons, hc]

theorem openWakeCount_start_sleep (db : DB) (c0 now c : Nat) :
    openWakeCount (start_sleep db c0 now).1 c = openWakeCount db c := rfl

theorem openSleepCount_start_wakefulness (db : DB) (c0 now c : Nat) :
    openSleepCount (start_wakefulness db c0 now).1 c = openSleepCount db c := rfl

theorem start_sleep_callback_no_child {db : DB} {chat now : Nat}
    (hchild : get_child db chat = none) :
    start_sleep_callback db chat now = db := by
  unfold start_sleep_callback
  simp only [hchild]

theorem start_sleep_callback_active {db : DB} {chat now : Nat} {child : ChildRow}
    {a : SleepRow} (hchild : get_child db chat = some child)
    (has : get_active_sleep db child.id = some a) :
    start_sleep_callback db chat now = db := by
  unfold start_sleep_callback
  simp only [hchild, has]

theorem start_sleep_callback_wake_none {db : DB} {chat now : Nat} {child : ChildRow}
    (hchild : get_child db chat = some child)
    (has : get_active_sleep db child.id = none)
    (haw : get_active_wakefulness db child.id = none) :
    start_sleep_callback db chat now = (start_sleep db child.id now).1 := by
  unfold start_sleep_callback
  simp only [hchild, has, haw]

theorem start_sleep_callback_wake_some {db : DB} {chat now : Nat} {child : ChildRow}
    {aw : WakeRow} (hchild : get_child db chat = some child)
    (has : get_active_sleep db child.id = none)
    (haw : get_active_wakefulness db child.id = some aw) :
    start_sleep_callback db chat now
      = (start_sleep (end_wakefulness db aw.id now) child.id now).1 := by
  unfold start_sleep_callback
  simp only [hchild, has, haw]

theorem start_wake_callback_no_child {db : DB} {chat now : Nat}
    (hchild : get_child db chat = none) :
    start_wake_callback db chat now = db := by
  unfold start_wake_callback
  simp only [hchild]

theorem start_wake_callback_active {db : DB} {chat now : Nat} {child : ChildRow}
    {a : WakeRow} (hchild : get_child db chat = some child)
    (haw : get_active_wakefulness db child.id = some a) :
    start_wake_callback db chat now = db := by
  unfold start_wake_callback
  simp only [hchild, haw]

theorem start_wake_callback_sleep_none {db : DB} {chat now : Nat} {child : ChildRow}
    (hchild : get_child db chat = some child)
    (haw : get_active_wakefulness db child.id = none)
    (has : get_active_sleep db child.id = none) :
    start_wake_callback db chat now = (start_wakefulness db child.id now).1 := by
  unfold start_wake_callback
  simp only [hchild, haw, has]

theorem start_wake_callback_sleep_some {db : DB} {chat now : Nat} {child : ChildRow}
    {as : SleepRow} (hchild : get_child db chat = some child)
    (haw : get_active_wakefulness db child.id = none)
    (has : get_active_sleep db child.id = some as) :
    start_wake_callback db chat now
      = (start_wakefulness (end_sleep db as.id now) child.id now).1 := by
  unfold start_wake_callback
  simp only [hchild, haw, has]

theorem end_sleep_callback_cases (db : DB) (chat now : Nat) :
    end_sleep_callback db chat now = db ∨
    ∃ sid, end_sleep_callback db chat now = end_sleep db sid now := by
  unfold end_sleep_callback
  cases hchild : get_child db chat with
  | none => exact Or.inl rfl
  | some child =>
    dsimp only
    cases has : get_active_sleep db child.id with
    | none => exact Or.inl rfl
    | some a => exact Or.inr ⟨a.id, rfl⟩

theorem end_wake_callback_cases (db : DB) (chat now : Nat) :
    end_wake_callback db chat now = db ∨
    ∃ wid, end_wake_callback db chat now = end_wakefulness db wid now := by
  unfold end_wake_callback
  cases hchild : get_child db chat with
  | none => exact Or.inl rfl
  | some child =>
    dsimp only
    cases haw : get_active_wakefulness db child.id with
    | none => exact Or.inl rfl
    | some a => exact Or.inr ⟨a.id, rfl⟩

/-- Per-child invariant over the sleep and wakefulness trackers: at most
one open interval in each table, and never one of each at once. -/
def SWInv (db : DB) : Prop :=
  ∀ c, openSleepCount db c ≤ 1 ∧ openWakeCount db c ≤ 1 ∧
    (openSleepCount db c = 0 ∨ openWakeCount db c = 0)

theorem SWInv_start_sleep_callback {db : DB} (h : SWInv db) (chat now : Nat) :
    SWInv (start_sleep_callback db chat now) := by
  cases hchild : get_child db chat with
  | none => rw [start_sleep_callback_no_child hchild]; exact h
  | some child =>
    cases has : get_active_sleep db child.id with
    | some a => rw [start_sleep_callback_active hchild has]; exact h
    | none =>
      have hs0 : openSleepCount db child.id = 0 := get_active_sleep_eq_none_iff.mp has
      cases haw : get_active_wakefulness db child.id with
      | none =>
        have hw0 : openWakeCount db child.id = 0 :=
          get_active_wakefulness_eq_none_iff.mp haw
        rw [start_sleep_callback_wake_none hchild has haw]
        intro c
        rw [openSleepCount_start_sleep, openWakeCount_start_sleep]
        by_cases hc : child.id = c
        · subst hc
          rw [if_pos rfl, hs0, hw0]
          exact ⟨le_refl 1, Nat.zero_le 1, Or.inr rfl⟩
        · rw [if_neg hc]
          have h1 := h c
          exact ⟨by omega, h1.2.1, by omega⟩
      | some aw =>
        have hw0 : openWakeCount (end_wakefulness db aw.id now) child.id = 0 :=
          openWakeCount_end_wakefulness_active haw (h child.id).2.1
        rw [start_sleep_callback_wake_some hchild has haw]
        intro c
        rw [openSleepCount_start_sleep, openWakeCount_start_sleep,
            openSleepCount_end_wakefulness]
        by_cases hc : child.id = c
        · subst hc
          rw [if_pos rfl, hs0, hw0]
          exact ⟨le_refl 1, Nat.zero_le 1, Or.inr rfl⟩
        · rw [if_neg hc]
          have h1 := h c
          have h2 := openWakeCount_end_wakefulness_le db aw.id now c
          refine ⟨by omega, by omega, ?_⟩
          rcases h1.2.2 with h3 | h3
          · exact Or.inl (by omega)
          · exact Or.inr (by omega)

theorem SWInv_start_wake_callback {db : DB} (h : SWInv db) (chat now : Nat) :
    SWInv (start_wake_callback db chat now) := by
  cases hchild : get_child db chat with
  | none => rw [start_wake_callback_no_child hchild]; exact h
  | some child =>
    cases haw : get_active_wakefulness db child.id with
    | some a => rw [start_wake_callback_active hchild haw]; exact h
    | none =>
      have hw0 : openWakeCount db child.id = 0 :=
        get_active_wakefulness_eq_none_iff.mp haw
      cases has : get_active_sleep db child.id with
      | none =>
        have hs0 : openSleepCount db child.id = 0 := get_active_sleep_eq_none_iff.mp has
        rw [start_wake_callback_sleep_none hchild haw has]
        intro c
        rw [openWakeCount_start_wakefulness, openSleepCount_start_wakefulness]
        by_cases hc : child.id = c
        · subst hc
          rw [if_pos rfl, hs0, hw0]
          exact ⟨Nat.zero_le 1, le_refl 1, Or.inl rfl⟩
        · rw [if_neg hc]
          have h1 := h c
          exact ⟨h1.1, by omega, by omega⟩
      | some as =>
        have hs0 : openSleepCount (end_sleep db as.id now) child.id = 0 :=
          openSleepCount_end_sleep_active has (h child.id).1
        rw [start_wake_callback_sleep_some hchild haw has]
        intro c
        rw [openWakeCount_start_wakefulness, openSleepCount_start_wakefulness,
            openWakeCount_end_sleep]
        by_cases hc : child.id = c
        · subst hc
          rw [if_pos rfl, hs0, hw0]
          exact ⟨Nat.zero_le 1, le_refl 1, Or.inl rfl⟩
        · rw [if_neg hc]
          have h1 := h c
          have h2 := openSleepCount_end_sleep_le db as.id now c
          refine ⟨by omega, by omega, ?_⟩
          rcases h1.2.2 with h3 | h3
          · exact Or.inl (by omega)
          · exact Or.inr (by omega)

theorem SWInv_end_sleep_callback {db : DB} (h : SWInv db) (chat now : Nat) :
    SWInv (end_sleep_callback db chat now) := by
  rcases end_sleep_callback_cases db chat now with heq | ⟨sid, heq⟩
  · rw [heq]; exact h
  · rw [heq]
    intro c
    have h1 := h c
    have h2 := openSleepCount_end_sleep_le db sid now c
    have h3 := openWakeCount_end_sleep db sid now c
    refine ⟨by omega, by omega, ?_⟩
    rcases h1.2.2 with h4 | h4
    · exact Or.inl (by omega)
    · exact Or.inr (by omega)

theorem SWInv_end_wake_callback {db : DB} (h : SWInv db) (chat now : Nat) :
    SWInv (end_wake_callback db chat now) := by
  rcases end_wake_callback_cases db chat now with heq | ⟨wid, heq⟩
  · rw [heq]; exact h
  · rw [heq]
    intro c
    have h1 := h c
    have h2 := openWakeCount_end_wakefulness_le db wid now c
    have h3 := openSleepCount_end_wakefulness db wid now c
    refine ⟨by omega, by omega, ?_⟩
    rcases h1.2.2 with h4 | h4
    · exact Or.inl (by omega)
    · exact Or.inr (by omega)

/-- One user interaction handled by a sleep/wake handler. -/
inductive SWStep : DB → DB → Prop
  | start_sleep_ev (chat now : Nat) (db : DB) : SWStep db (start_sleep_callback db chat now)
  | end_sleep_ev (chat now : Nat) (db : DB) : SWStep db (end_sleep_callback db chat now)
  | start_wake_ev (chat now : Nat) (db : DB) : SWStep db (start_wake_callback db chat now)
  | end_wake_ev (chat now : Nat) (db : DB) : SWStep db (end_wake_callback db chat now)

/-- A database whose activity trackers are empty; the children table is
arbitrary, covering any set of registrations. -/
def initDB (children : List ChildRow) : DB :=
  ⟨children, [], [], [], [], [], 1, 1, 1, 1, 1, 1⟩

/-- Database states reachable from empty trackers through the sleep/wake
handlers. -/
inductive SWReachable : DB → Prop
  | init (children : List ChildRow) : SWReachable (initDB children)
  | step {db db' : DB} : SWReachable db → SWStep db db' → SWReachable db'

theorem SWInv_initDB (children : List ChildRow) : SWInv (initDB children) := by
  intro c
  exact ⟨Nat.zero_le 1, Nat.zero_le 1, Or.inl rfl⟩

/-- C1: for every child, in every database state reachable from empty
trackers through the sleep/wake handlers, the sleep_tracker holds at most
one open interval for that child, the wakefulness_tracker holds at most
one open interval for that child, and an open sleep interval and an open
wakefulness interval never exist for the same child at the same time. -/
theorem sleep_wake_open_interval_invariant :
    ∀ db : DB, SWReachable db → ∀ c : Nat,
      openSleepCount db c ≤ 1 ∧ openWakeCount db c ≤ 1 ∧
      ¬(0 < openSleepCount db c ∧ 0 < openWakeCount db c) := by
  intro db hreach
  suffices hinv : SWInv db by
    intro c
    have h := hinv c
    exact ⟨h.1, h.2.1, by omega⟩
  induction hreach with
  | init children => exact SWInv_initDB children
  | step hr hs ih =>
    cases hs with
    | start_sleep_ev chat now db => exact SWInv_start_sleep_callback ih chat now
    | end_sleep_ev chat now db => exact SWInv_end_sleep_callback ih chat now
    | start_wake_ev chat now db => exact SWInv_start_wake_callback ih chat now
    | end_wake_ev chat now db => exact SWInv_end_wake_callback ih chat now

/-- A concrete registered child used by witness instantiations. -/
def childA : ChildRow := ⟨1, 10, "Alice", none, "f", 20000, 40, 0, 3, 50, 0⟩

theorem sleep_wake_open_interval_invariant_witness :
    openSleepCount (start_sleep_callback (initDB [childA]) 10 600) 1 ≤ 1 ∧
    openWakeCount (start_sleep_callback (initDB [childA]) 10 600) 1 ≤ 1 ∧
    ¬(0 < openSleepCount (start_sleep_callback (initDB [childA]) 10 600) 1 ∧
      0 < openWakeCount (start_sleep_callback (initDB [childA]) 10 600) 1) :=
  sleep_wake_open_interval_invariant _
    (SWReachable.step (SWReachable.init [childA])
      (SWStep.start_sleep_ev 10 600 (initDB [childA]))) 1

theorem find_key_of_nodup {α : Type} (key : α → Nat) {l : List α}
    (h : (l.map key).Nodup) {a : α} (ha : a ∈ l) :
    l.find? (fun r => key r == key a) = some a := by
  induction l with
  | nil => cases ha
  | cons x xs ih =>
    rw [List.map_cons, List.nodup_cons] at h
    rcases List.mem_cons.mp ha with h1 | h1
    · subst h1
      rw [List.find?_cons_of_pos]
      simp
    · have hk : key x ≠ key a := by
        intro he
        exact h.1 (he ▸ List.mem_map_of_mem key h1)
      rw [List.find?_cons_of_neg]
      · exact ih h.2 h1
      · simp [hk]

theorem end_wakefulness_found {db : DB} {aw : WakeRow} {now : Nat}
    (hf : db.wakefulness_tracker.find? (fun r => r.id == aw.id) = some aw) :
    end_wakefulness db aw.id now
      = { db with wakefulness_tracker := db.wakefulness_tracker.map (fun r =>
          if r.id == aw.id then
            { r with wake_end := some now,
                     duration_minutes := some ((now - aw.wake_start) / 60) }
          else r) } := by
  unfold end_wakefulness
  rw [hf]

theorem end_sleep_found {db : DB} {as : SleepRow} {now : Nat}
    (hf : db.sleep_tracker.find? (fun r => r.id == as.id) = some as) :
    end_sleep db as.id now
      = { db with sleep_tracker := db.sleep_tracker.map (fun r =>
          if r.id == as.id then
            { r with sleep_end := some now,
                     duration_minutes := some ((now - as.sleep_start) / 60) }
          else r) } := by
  unfold end_sleep
  rw [hf]

theorem end_wakefulness_next_sleep_id (db : DB) (wid now : Nat) :
    (end_wakefulness db wid now).next_sleep_id = db.next_sleep_id := by
  unfold end_wakefulness
  cases h : db.wakefulness_tracker.find? (fun r => r.id == wid) <;> rfl

theorem end_sleep_next_wake_id (db : DB) (sid now : Nat) :
    (end_sleep db sid now).next_wake_id = db.next_wake_id := by
  unfold end_sleep
  cases h : db.sleep_tracker.find? (fun r => r.id == sid) <;> rfl

/-- C2: for a registered child with no open sleep interval but an open
wakefulness interval, the start-sleep handler closes that wakefulness
interval (setting its end timestamp and derived duration) and inserts a
new open sleep interval; symmetrically, the start-wakefulness handler
closes an open sleep interval before inserting a new open wakefulness
interval.  Primary-key uniqueness of the interval ids is assumed. -/
theorem start_handlers_force_close_other_interval :
    (∀ (db : DB) (chat now : Nat) (child : ChildRow) (aw : WakeRow),
      get_child db chat = some child →
      get_active_sleep db child.id = none →
      get_active_wakefulness db child.id = some aw →
      (db.wakefulness_tracker.map (fun r => r.id)).Nodup →
      (start_sleep_callback db chat now).wakefulness_tracker
        = db.wakefulness_tracker.map (fun r =>
            if r.id == aw.id then
              { r with wake_end := some now,
                       duration_minutes := some ((now - aw.wake_start) / 60) }
            else r)
      ∧ (start_sleep_callback db chat now).sleep_tracker
        = db.sleep_tracker ++ [⟨db.next_sleep_id, child.id, now, none, none, none⟩]) ∧
    (∀ (db : DB) (chat now : Nat) (child : ChildRow) (as : SleepRow),
      get_child db chat = some child →
      get_active_wakefulness db child.id = none →
      get_active_sleep db child.id = some as →
      (db.sleep_tracker.map (fun r => r.id)).Nodup →
      (start_wake_callback db chat now).sleep_tracker
        = db.sleep_tracker.map (fun r =>
            if r.id == as.id then
              { r with sleep_end := some now,
                       duration_minutes := some ((now - as.sleep_start) / 60) }
            else r)
      ∧ (start_wake_callback db chat now).wakefulness_tracker
        = db.wakefulness_tracker ++ [⟨db.next_wake_id, child.id, now, none, none, none⟩]) := by
  constructor
  · intro db chat now child aw hchild has haw hnodup
    have hmem : aw ∈ db.wakefulness_tracker := (get_active_wakefulness_spec haw).1
    have hf : db.wakefulness_tracker.find? (fun r => r.id == aw.id) = some aw :=
      find_key_of_nodup (fun r => r.id) hnodup hmem
    rw [start_sleep_callback_wake_some hchild has haw,
        end_wakefulness_found hf]
    constructor
    · rfl
    · rfl
  · intro db chat now child as hchild haw has hnodup
    have hmem : as ∈ db.sleep_tracker := (get_active_sleep_spec has).1
    have hf : db.sleep_tracker.find? (fun r => r.id == as.id) = some as :=
      find_key_of_nodup (fun r => r.id) hnodup hmem
    rw [start_wake_callback_sleep_some hchild haw has,
        end_sleep_found hf]
    constructor
    · rfl
    · rfl

/-- A database with one registered child and one open wakefulness interval. -/
def dbOpenWake : DB :=
  ⟨[childA], [], [], [], [], [⟨1, 1, 100, none, none, none⟩], 2, 1, 1, 1, 1, 2⟩

/-- A database with one registered child and one open sleep interval. -/
def dbOpenSleep : DB :=
  ⟨[childA], [], [], [], [⟨1, 1, 100, none, none, none⟩], [], 2, 1, 1, 1, 2, 1⟩

theorem start_handlers_force_close_other_interval_witness :
    ((start_sleep_callback dbOpenWake 10 700).wakefulness_tracker
        = dbOpenWake.wakefulness_tracker.map (fun r =>
            if r.id == 1 then
              { r with wake_end := some 700,
                       duration_minutes := some ((700 - 100) / 60) }
            else r)
      ∧ (start_sleep_callback dbOpenWake 10 700).sleep_tracker
        = dbOpenWake.sleep_tracker ++ [⟨1, 1, 700, none, none, none⟩]) ∧
    ((start_wake_callback dbOpenSleep 10 700).sleep_tracker
        = dbOpenSleep.sleep_tracker.map (fun r =>
            if r.id == 1 then
              { r with sleep_end := some 700,
                       duration_minutes := some ((700 - 100) / 60) }
            else r)
      ∧ (start_wake_callback dbOpenSleep 10 700).wakefulness_tracker
        = dbOpenSleep.wakefulness_tracker ++ [⟨1, 1, 700, none, none, none⟩]) :=
  ⟨start_handlers_force_close_other_interval.1 dbOpenWake 10 700 childA
      ⟨1, 1, 100, none, none, none⟩ (by decide) (by decide) (by decide) (by decide),
   start_handlers_force_close_other_interval.2 dbOpenSleep 10 700 childA
      ⟨1, 1, 100, none, none, none⟩ (by decide) (by decide) (by decide) (by decide)⟩

theorem start_feeding_callback_no_child {db : DB} {chat now : Nat}
    (hchild : get_child db chat = none) :
    start_feeding_callback db chat now = db := by
  unfold start_feeding_callback
  simp only [hchild]

theorem start_feeding_callback_active {db : DB} {chat now : Nat} {child : ChildRow}
    {f : FeedingRow} (hchild : get_child db chat = some child)
    (haf : get_active_feeding db chat = some f) :
    start_feeding_callback db chat now = db := by
  unfold start_feeding_callback
  simp only [hchild, haf]

theorem start_feeding_callback_inserts {db : DB} {chat now : Nat} {child : ChildRow}
    (hchild : get_child db chat = some child)
    (haf : get_active_feeding db chat = none) :
    start_feeding_callback db chat now = (start_feeding db chat child.id now).1 := by
  unfold start_feeding_callback
  simp only [hchild, haf]

theorem openFeedingCount_start_feeding (db : DB) (chat0 cid now c : Nat) :
    openFeedingCount (start_feeding db chat0 cid now).1 c
      = openFeedingCount db c + (if chat0 = c then 1 else 0) := by
  unfold start_feeding openFeedingCount
  dsimp only
  rw [List.countP_append]
  congr 1
  by_cases hc : chat0 = c
  · rw [if_pos hc]
    simp [List.countP_cons, hc]
  · rw [if_neg hc]
    simp [List.countP_cons, hc]

theorem openFeedingCount_pause_feeding (db : DB) (fid now c : Nat) :
    openFeedingCount (pause_feeding db fid now) c = openFeedingCount db c := by
  unfold pause_feeding openFeedingCount
  dsimp only
  apply countP_map_eq_of
  intro a _
  by_cases h : (a.id == fid) = true
  · rw [if_pos h]
  · rw [if_neg h]

theorem openFeedingCount_resume_feeding (db : DB) (fid now c : Nat) :
    openFeedingCount (resume_feeding db fid now) c = openFeedingCount db c := by
  unfold resume_feeding
  cases hf : db.feedings.find? (fun r => r.id == fid) with
  | none => rfl
  | some row =>
    dsimp only
    cases hp : row.paused_at with
    | none => rfl
    | some p =>
      unfold openFeedingCount
      dsimp only
      apply countP_map_eq_of
      intro a _
      by_cases h : (a.id == fid) = true
      · rw [if_pos h]
      · rw [if_neg h]

theorem openFeedingCount_add_eaten_ml (db : DB) (fid : Nat) (m : Int) (c : Nat) :
    openFeedingCount (add_eaten_ml db fid m) c = openFeedingCount db c := by
  unfold add_eaten_ml openFeedingCount
  dsimp only
  apply countP_map_eq_of
  intro a _
  by_cases h : (a.id == fid) = true
  · rw [if_pos h]
  · rw [if_neg h]

theorem openFeedingCount_finish_feeding_le (db : DB) (fid now c : Nat) :
    openFeedingCount (finish_feeding db fid now) c ≤ openFeedingCount db c := by
  unfold finish_feeding openFeedingCount
  dsimp only
  apply countP_map_le_of
  intro a _ hpa
  by_cases h : (a.id == fid) = true
  · rw [if_pos h] at hpa
    simp at hpa
  · rw [if_neg h] at hpa
    exact hpa

/-- Per-chat invariant over the feedings table: at most one open feeding. -/
def FInv (db : DB) : Prop := ∀ chat, openFeedingCount db chat ≤ 1

theorem FInv_start_feeding_callback {db : DB} (h : FInv db) (chat now : Nat) :
    FInv (start_feeding_callback db chat now) := by
  cases hchild : get_child db chat with
  | none => rw [start_feeding_callback_no_child hchild]; exact h
  | some child =>
    cases haf : get_active_feeding db chat with
    | some f => rw [start_feeding_callback_active hchild haf]; exact h
    | none =>
      have h0 : openFeedingCount db chat = 0 := get_active_feeding_eq_none_iff.mp haf
      rw [start_feeding_callback_inserts hchild haf]
      intro c
      rw [openFeedingCount_start_feeding]
      by_cases hc : chat = c
      · subst hc
        rw [if_pos rfl, h0]
      · rw [if_neg hc]
        have := h c
        omega

theorem FInv_pause_feeding_callback {db : DB} (h : FInv db) (chat now : Nat) :
    FInv (pause_feeding_callback db chat now) := by
  unfold pause_feeding_callback
  cases haf : get_active_feeding db chat with
  | none => exact h
  | some f =>
    dsimp only
    split
    · exact h
    · intro c
      rw [openFeedingCount_pause_feeding]
      exact h c

theorem FInv_resume_feeding_callback {db : DB} (h : FInv db) (chat now : Nat) :
    FInv (resume_feeding_callback db chat now) := by
  unfold resume_feeding_callback
  cases haf : get_active_feeding db chat with
  | none => exact h
  | some f =>
    dsimp only
    split
    · exact h
    · intro c
      rw [openFeedingCount_resume_feeding]
      exact h c

theorem FInv_add_eaten_quick_callback {db : DB} (h : FInv db) (chat : Nat) (m : Int) :
    FInv (add_eaten_quick_callback db chat m) := by
  unfold add_eaten_quick_callback
  cases haf : get_active_feeding db chat with
  | none => exact h
  | some f =>
    intro c
    rw [openFeedingCount_add_eaten_ml]
    exact h c

theorem FInv_finish_feeding_callback {db : DB} (h : FInv db) (chat now : Nat) :
    FInv (finish_feeding_callback db chat now) := by
  unfold finish_feeding_callback
  cases haf : get_active_feeding db chat with
  | none => exact h
  | some f =>
    dsimp only
    intro c
    have := openFeedingCount_finish_feeding_le db f.id now c
    have := h c
    omega

theorem FInv_cancel_feeding_callback {db : DB} (h : FInv db) (chat : Nat) :
    FInv (cancel_feeding_callback db chat) := by
  unfold cancel_feeding_callback
  cases haf : get_active_feeding db chat with
  | none => exact h
  | some f =>
    dsimp only
    intro c
    have hsub : (db.feedings.filter (fun r => !(r.id == f.id))).Sublist db.feedings :=
      List.filter_sublist db.feedings
    have h1 := hsub.countP_le (fun r => r.chat_id == c && r.end_time.isNone)
    have h2 := h c
    unfold openFeedingCount at h2 ⊢
    dsimp only at h2 ⊢
    omega

theorem FInv_process_custom_amount {db : DB} (h : FInv db) (chat : Nat)
    (parsed : Option Int) : FInv (process_custom_amount db chat parsed).1 := by
  unfold process_custom_amount
  cases haf : get_active_feeding db chat with
  | none => exact h
  | some f =>
    dsimp only
    cases parsed with
    | none => exact h
    | some n =>
      dsimp only
      split
      · exact h
      · split
        · exact h
        · cases hchild : get_child db chat with
          | none =>
            dsimp only
            intro c
            rw [openFeedingCount_add_eaten_ml]
            exact h c
          | some child =>
            dsimp only
            intro c
            rw [openFeedingCount_add_eaten_ml]
            exact h c

/-- One user interaction handled by a feeding handler. -/
inductive FeedStep : DB → DB → Prop
  | start_ev (chat now : Nat) (db : DB) : FeedStep db (start_feeding_callback db chat now)
  | pause_ev (chat now : Nat) (db : DB) : FeedStep db (pause_feeding_callback db chat now)
  | resume_ev (chat now : Nat) (db : DB) : FeedStep db (resume_feeding_callback db chat now)
  | quick_ev (chat : Nat) (m : Int) (db : DB) : FeedStep db (add_eaten_quick_callback db chat m)
  | custom_ev (chat : Nat) (parsed : Option Int) (db : DB) :
      FeedStep db (process_custom_amount db chat parsed).1
  | finish_ev (chat now : Nat) (db : DB) : FeedStep db (finish_feeding_callback db chat now)
  | cancel_ev (chat : Nat) (db : DB) : FeedStep db (cancel_feeding_callback db chat)

/-- Database states reachable from an empty feedings table through the
feeding handlers. -/
inductive FeedReachable : DB → Prop
  | init (children : List ChildRow) : FeedReachable (initDB children)
  | step {db db' : DB} : FeedReachable db → FeedStep db db' → FeedReachable db'

/-- C3: in every database state reachable through the feeding handlers,
each chat has at most one feeding row with end_time NULL, and the
start-feeding handler leaves the database unchanged whenever an open
feeding already exists for the chat. -/
theorem one_open_feeding_per_chat :
    (∀ db : DB, FeedReachable db → ∀ chat : Nat, openFeedingCount db chat ≤ 1) ∧
    (∀ (db : DB) (chat now : Nat),
      (get_active_feeding db chat).isSome → start_feeding_callback db chat now = db) := by
  constructor
  · intro db hreach
    induction hreach with
    | init children => intro chat; exact Nat.zero_le 1
    | step hr hs ih =>
      cases hs with
      | start_ev chat now db => exact FInv_start_feeding_callback ih chat now
      | pause_ev chat now db => exact FInv_pause_feeding_callback ih chat now
      | resume_ev chat now db => exact FInv_resume_feeding_callback ih chat now
      | quick_ev chat m db => exact FInv_add_eaten_quick_callback ih chat m
      | custom_ev chat parsed db => exact FInv_process_custom_amount ih chat parsed
      | finish_ev chat now db => exact FInv_finish_feeding_callback ih chat now
      | cancel_ev chat db => exact FInv_cancel_feeding_callback ih chat
  · intro db chat now hsome
    cases hchild : get_child db chat with
    | none => exact start_feeding_callback_no_child hchild
    | some child =>
      cases haf : get_active_feeding db chat with
      | none => rw [haf] at hsome; cases hsome
      | some f => exact start_feeding_callback_active hchild haf

theorem one_open_feeding_per_chat_witness :
    (openFeedingCount (start_feeding_callback (initDB [childA]) 10 500) 10 ≤ 1) ∧
    (start_feeding_callback
        (start_feeding_callback (initDB [childA]) 10 500) 10 900
      = start_feeding_callback (initDB [childA]) 10 500) :=
  ⟨one_open_feeding_per_chat.1 _
      (FeedReachable.step (FeedReachable.init [childA])
        (FeedStep.start_ev 10 500 (initDB [childA]))) 10,
   one_open_feeding_per_chat.2 (start_feeding_callback (initDB [childA]) 10 500)
      10 900 (by decide)⟩

theorem filterMap_eq_map_getD {α β : Type} (f : α → Option β) (d : β) (l : List α)
    (h : ∀ a ∈ l, f a ≠ none) :
    l.filterMap f = l.map (fun a => (f a).getD d) := by
  induction l with
  | nil => rfl
  | cons x xs ih =>
    cases hfx : f x with
    | none => exact absurd hfx (h x (List.mem_cons_self x xs))
    | some b =>
      rw [List.filterMap_cons, hfx, List.map_cons, hfx,
          ih (fun a ha => h a (List.mem_cons_of_mem x ha))]
      rfl

/-- C5: get_active_sleep returns a row iff the sleep_tracker contains a row
for the child with sleep_end NULL; and end_sleep on such a row sets its
sleep_end to the current time and its duration_minutes to the floor of the
elapsed seconds divided by 60, after which no row with that id is open.
Primary-key uniqueness of ids and start ≤ now are assumed. -/
theorem active_sleep_iff_open_row :
    (∀ (db : DB) (c : Nat),
      (get_active_sleep db c).isSome ↔
        ∃ r ∈ db.sleep_tracker, r.child_id = c ∧ r.sleep_end = none) ∧
    (∀ (db : DB) (r : SleepRow) (now : Nat),
      r ∈ db.sleep_tracker → r.sleep_end = none →
      (db.sleep_tracker.map (fun x => x.id)).Nodup →
      r.sleep_start ≤ now →
      (end_sleep db r.id now).sleep_tracker
        = db.sleep_tracker.map (fun x =>
            if x.id == r.id then
              { x with sleep_end := some now,
                       duration_minutes := some ((now - r.sleep_start) / 60) }
            else x)
      ∧ ∀ x ∈ (end_sleep db r.id now).sleep_tracker, x.id = r.id →
          x.sleep_end = some now
          ∧ x.duration_minutes = some ((now - r.sleep_start) / 60)) := by
  constructor
  · intro db c
    constructor
    · intro hs
      cases h : get_active_sleep db c with
      | none => rw [h] at hs; cases hs
      | some a =>
        obtain ⟨hmem, hc, ho⟩ := get_active_sleep_spec h
        exact ⟨a, hmem, hc, ho⟩
    · rintro ⟨r, hr, hc, ho⟩
      cases h : get_active_sleep db c with
      | some a => rfl
      | none =>
        exfalso
        have h0 : openSleepCount db c = 0 := get_active_sleep_eq_none_iff.mp h
        unfold openSleepCount at h0
        have := List.countP_eq_zero.mp h0 r hr
        apply this
        simp [hc, ho]
  · intro db r now hmem hopen hnodup hstart
    have hf : db.sleep_tracker.find? (fun x => x.id == r.id) = some r :=
      find_key_of_nodup (fun x => x.id) hnodup hmem
    refine ⟨by rw [end_sleep_found hf], ?_⟩
    intro x hx hid
    rw [end_sleep_found hf] at hx
    dsimp only at hx
    rw [List.mem_map] at hx
    obtain ⟨y, hy, hxy⟩ := hx
    subst hxy
    by_cases h : (y.id == r.id) = true
    · rw [if_pos h]
      exact ⟨rfl, rfl⟩
    · rw [if_neg h] at hid ⊢
      exact absurd (by simp [hid]) h

theorem active_sleep_iff_open_row_witness :
    ((get_active_sleep dbOpenSleep 1).isSome ↔
      ∃ r ∈ dbOpenSleep.sleep_tracker, r.child_id = 1 ∧ r.sleep_end = none) ∧
    ((end_sleep dbOpenSleep 1 400).sleep_tracker
        = dbOpenSleep.sleep_tracker.map (fun x =>
            if x.id == 1 then
              { x with sleep_end := some 400,
                       duration_minutes := some ((400 - 100) / 60) }
            else x)
      ∧ ∀ x ∈ (end_sleep dbOpenSleep 1 400).sleep_tracker, x.id = 1 →
          x.sleep_end = some 400 ∧ x.duration_minutes = some ((400 - 100) / 60)) :=
  ⟨active_sleep_iff_open_row.1 dbOpenSleep 1,
   active_sleep_iff_open_row.2 dbOpenSleep ⟨1, 1, 100, none, none, none⟩ 400
     (by decide) (by decide) (by decide) (by decide)⟩

theorem aggregates_of_total {α : Type} (dur : α → Option Nat) (rows : List α)
    (h : ∀ a ∈ rows, dur a ≠ none) :
    ((if (rows.filterMap dur).isEmpty then (none : Option Nat)
       else some (rows.filterMap dur).sum)
      = (if rows.length = 0 then none
         else some (rows.map (fun a => (dur a).getD 0)).sum))
    ∧ ((if (rows.filterMap dur).isEmpty then (none : Option ℚ)
         else some (((rows.filterMap dur).sum : ℚ) / ((rows.filterMap dur).length : ℚ)))
      = (if rows.length = 0 then none
         else some (((rows.map (fun a => (dur a).getD 0)).sum : ℚ) / (rows.length : ℚ)))) := by
  rw [filterMap_eq_map_getD dur 0 rows h]
  by_cases hr : rows = []
  · subst hr
    exact ⟨rfl, rfl⟩
  · have h1 : (rows.map (fun a => (dur a).getD 0)).isEmpty = false := by
      cases hmap : rows.map (fun a => (dur a).getD 0) with
      | nil => exact absurd (List.map_eq_nil_iff.mp hmap) hr
      | cons x xs => rfl
    have h2 : ¬ rows.length = 0 := fun hl => hr (List.length_eq_zero.mp hl)
    rw [h1]
    simp only [Bool.false_eq_true, if_false, if_neg h2, List.length_map]
    exact ⟨trivial, trivial⟩

/-- C4: for every child, get_sleep_stats_today returns exactly the count,
the sum and the arithmetic mean of duration_minutes over precisely the
closed sleep intervals of the child whose start falls on the current
date, open intervals excluded; and likewise get_wakefulness_stats_today
over wakefulness intervals.  Closed rows are assumed to carry a recorded
duration, as every handler that closes a row writes one. -/
theorem stats_today_aggregates :
    ∀ (db : DB) (c today : Nat),
      (∀ r ∈ db.sleep_tracker, r.sleep_end ≠ none → r.duration_minutes ≠ none) →
      (∀ r ∈ db.wakefulness_tracker, r.wake_end ≠ none → r.duration_minutes ≠ none) →
      (get_sleep_stats_today db c today
        = (let sel := db.sleep_tracker.filter (fun r =>
             r.child_id == c && r.sleep_start / 86400 == today && !r.sleep_end.isNone)
           let durs : List Nat := sel.map (fun r => r.duration_minutes.getD 0)
           (sel.length,
            if sel.length = 0 then none else some durs.sum,
            if sel.length = 0 then none
            else some ((durs.sum : ℚ) / (sel.length : ℚ)))))
      ∧ (get_wakefulness_stats_today db c today
        = (let sel := db.wakefulness_tracker.filter (fun r =>
             r.child_id == c && r.wake_start / 86400 == today && !r.wake_end.isNone)
           let durs : List Nat := sel.map (fun r => r.duration_minutes.getD 0)
           (sel.length,
            if sel.length = 0 then none else some durs.sum,
            if sel.length = 0 then none
            else some ((durs.sum : ℚ) / (sel.length : ℚ))))) := by
  intro db c today hs hw
  constructor
  · have hdur : ∀ r ∈ db.sleep_tracker.filter (fun r =>
        r.child_id == c && r.sleep_start / 86400 == today && !r.sleep_end.isNone),
        r.duration_minutes ≠ none := by
      intro r hr
      have hm := List.mem_filter.mp hr
      have hp := hm.2
      simp only [Bool.and_eq_true, Bool.not_eq_true'] at hp
      apply hs r hm.1
      intro he
      rw [he] at hp
      exact absurd hp.2 (by simp)
    obtain ⟨e1, e2⟩ :=
      aggregates_of_total (fun r => r.duration_minutes)
        (db.sleep_tracker.filter (fun r =>
          r.child_id == c && r.sleep_start / 86400 == today && !r.sleep_end.isNone)) hdur
    unfold get_sleep_stats_today
    dsimp only
    rw [e1, e2]
  · have hdur : ∀ r ∈ db.wakefulness_tracker.filter (fun r =>
        r.child_id == c && r.wake_start / 86400 == today && !r.wake_end.isNone),
        r.duration_minutes ≠ none := by
      intro r hr
      have hm := List.mem_filter.mp hr
      have hp := hm.2
      simp only [Bool.and_eq_true, Bool.not_eq_true'] at hp
      apply hw r hm.1
      intro he
      rw [he] at hp
      exact absurd hp.2 (by simp)
    obtain ⟨e1, e2⟩ :=
      aggregates_of_total (fun r => r.duration_minutes)
        (db.wakefulness_tracker.filter (fun r =>
          r.child_id == c && r.wake_start / 86400 == today && !r.wake_end.isNone)) hdur
    unfold get_wakefulness_stats_today
    dsimp only
    rw [e1, e2]

/-- A database with closed and open sleep/wake intervals across two days. -/
def dbStats : DB :=
  ⟨[childA], [], [], [],
   [⟨1, 1, 100, some 1900, some 30, none⟩,
    ⟨2, 1, 2000, some 5600, some 60, none⟩,
    ⟨3, 1, 90000, some 91000, some 16, none⟩,
    ⟨4, 1, 7000, none, none, none⟩],
   [⟨1, 1, 500, some 2300, some 30, none⟩,
    ⟨2, 1, 8000, none, none, none⟩],
   2, 1, 1, 1, 5, 3⟩

theorem stats_today_aggregates_witness :
    (get_sleep_stats_today dbStats 1 0
      = (let sel := dbStats.sleep_tracker.filter (fun r =>
           r.child_id == 1 && r.sleep_start / 86400 == 0 && !r.sleep_end.isNone)
         let durs : List Nat := sel.map (fun r => r.duration_minutes.getD 0)
         (sel.length,
          if sel.length = 0 then none else some durs.sum,
          if sel.length = 0 then none
          else some ((durs.sum : ℚ) / (sel.length : ℚ)))))
    ∧ (get_wakefulness_stats_today dbStats 1 0
      = (let sel := dbStats.wakefulness_tracker.filter (fun r =>
           r.child_id == 1 && r.wake_start / 86400 == 0 && !r.wake_end.isNone)
         let durs : List Nat := sel.map (fun r => r.duration_minutes.getD 0)
         (sel.length,
          if sel.length = 0 then none else some durs.sum,
          if sel.length = 0 then none
          else some ((durs.sum : ℚ) / (sel.length : ℚ))))) :=
  stats_today_aggregates dbStats 1 0 (by decide) (by decide)

/-- C7: while a feeding is active, a reply to the custom-amount prompt is
added to that feeding's total exactly when it parses as an integer n with
0 < n and n ≤ 500; for any other reply (parse failure, non-positive, or
above 500) the database is unchanged and the conversation stays in the
waiting-for-custom-amount state. -/
theorem process_custom_amount_validation :
    ∀ (db : DB) (chat : Nat) (parsed : Option Int) (f : FeedingRow),
      get_active_feeding db chat = some f →
      (∀ n : Int, parsed = some n → 0 < n → n ≤ 500 →
        process_custom_amount db chat parsed = (add_eaten_ml db f.id n, false))
      ∧ (¬(∃ n : Int, parsed = some n ∧ 0 < n ∧ n ≤ 500) →
        process_custom_amount db chat parsed = (db, true)) := by
  intro db chat parsed f haf
  unfold process_custom_amount
  rw [haf]
  dsimp only
  constructor
  · intro n hn h1 h2
    subst hn
    dsimp only
    rw [if_neg (by omega), if_neg (by omega)]
    cases hchild : get_child db chat <;> rfl
  · intro hno
    cases parsed with
    | none => rfl
    | some n =>
      dsimp only
      by_cases hn1 : n ≤ 0
      · rw [if_pos hn1]
      · have h500 : n > 500 := by
          by_contra hc
          exact hno ⟨n, rfl, by omega, by omega⟩
        rw [if_neg hn1, if_pos h500]

/-- A database with one registered child and one open, never-fed feeding. -/
def dbFeed : DB :=
  ⟨[childA], [⟨1, 10, 1, 100, none, none, none, 0, none, 0, 0⟩],
   [], [], [], [], 2, 2, 1, 1, 1, 1⟩

theorem process_custom_amount_validation_witness :
    process_custom_amount dbFeed 10 (some 75) = (add_eaten_ml dbFeed 1 75, false)
    ∧ process_custom_amount dbFeed 10 (some 600) = (dbFeed, true) :=
  ⟨(process_custom_amount_validation dbFeed 10 (some 75)
      ⟨1, 10, 1, 100, none, none, none, 0, none, 0, 0⟩ (by decide)).1 75 rfl
      (by decide) (by decide),
   (process_custom_amount_validation dbFeed 10 (some 600)
      ⟨1, 10, 1, 100, none, none, none, 0, none, 0, 0⟩ (by decide)).2
      (by rintro ⟨n, hn, h1, h2⟩; cases hn; omega)⟩

/-- C8: add_eaten_ml(fid, m) sets total_eaten_ml of a row with id fid to m
when the stored value was NULL and to the stored value plus m otherwise,
and it modifies no other column of that row, no other feeding row, and no
other table. -/
theorem add_eaten_ml_frame :
    ∀ (db : DB) (fid : Nat) (m : Int),
      (add_eaten_ml db fid m).children = db.children
      ∧ (add_eaten_ml db fid m).measurements = db.measurements
      ∧ (add_eaten_ml db fid m).reminders = db.reminders
      ∧ (add_eaten_ml db fid m).sleep_tracker = db.sleep_tracker
      ∧ (add_eaten_ml db fid m).wakefulness_tracker = db.wakefulness_tracker
      ∧ (add_eaten_ml db fid m).feedings.length = db.feedings.length
      ∧ ∀ (i : Nat) (r : FeedingRow), db.feedings[i]? = some r →
          ∃ s : FeedingRow, (add_eaten_ml db fid m).feedings[i]? = some s
            ∧ (r.id ≠ fid → s = r)
            ∧ (r.id = fid →
                s.id = r.id ∧ s.chat_id = r.chat_id ∧ s.child_id = r.child_id
                ∧ s.start_time = r.start_time ∧ s.end_time = r.end_time
                ∧ s.prepared_ml = r.prepared_ml ∧ s.is_paused = r.is_paused
                ∧ s.paused_at = r.paused_at ∧ s.pauses_count = r.pauses_count
                ∧ s.total_pause_duration = r.total_pause_duration
                ∧ (r.total_eaten_ml = none → s.total_eaten_ml = some m)
                ∧ (∀ v : Int, r.total_eaten_ml = some v →
                    s.total_eaten_ml = some (v + m))) := by
  intro db fid m
  refine ⟨rfl, rfl, rfl, rfl, rfl, ?_, ?_⟩
  · unfold add_eaten_ml
    dsimp only
    rw [List.length_map]
  · intro i r hi
    refine ⟨if r.id == fid then
        { r with total_eaten_ml := some (r.total_eaten_ml.getD 0 + m) }
      else r, ?_, ?_, ?_⟩
    · unfold add_eaten_ml
      dsimp only
      rw [List.getElem?_map, hi]
      rfl
    · intro hne
      rw [if_neg (by simp [hne])]
    · intro heq
      rw [if_pos (by simp [heq])]
      refine ⟨rfl, rfl, rfl, rfl, rfl, rfl, rfl, rfl, rfl, rfl, ?_, ?_⟩
      · intro hnone
        rw [hnone]
        dsimp only
        rw [Option.getD_none]
        rw [Int.zero_add]
      · intro v hv
        rw [hv]
        rfl

theorem add_eaten_ml_frame_witness :
    ∃ s : FeedingRow, (add_eaten_ml dbFeed 1 5).feedings[0]? = some s
      ∧ s.total_eaten_ml = some 5 := by
  obtain ⟨s, hs, hne, heq⟩ :=
    (add_eaten_ml_frame dbFeed 1 5).2.2.2.2.2.2 0
      ⟨1, 10, 1, 100, none, none, none, 0, none, 0, 0⟩ rfl
  exact ⟨s, hs, (heq rfl).2.2.2.2.2.2.2.2.2.2.1 rfl⟩

/-- C9: resume_feeding on a feeding whose paused_at is NULL — including a
feeding id not present in the table — is a silent no-op that returns the
database unchanged. -/
theorem resume_feeding_not_paused_noop :
    ∀ (db : DB) (fid now : Nat),
      (∀ r ∈ db.feedings, r.id = fid → r.paused_at = none) →
      resume_feeding db fid now = db := by
  intro db fid now h
  unfold resume_feeding
  cases hf : db.feedings.find? (fun r => r.id == fid) with
  | none => rfl
  | some row =>
    dsimp only
    have hrow : row.paused_at = none := by
      have hp := List.find?_some hf
      simp only [beq_iff_eq] at hp
      exact h row (List.mem_of_find?_eq_some hf) hp
    rw [hrow]

theorem resume_feeding_not_paused_noop_witness :
    resume_feeding dbFeed 1 999 = dbFeed :=
  resume_feeding_not_paused_noop dbFeed 1 999 (by decide)

theorem mem_of_getD_eq_some {α : Type} {l : List (Option α)} {i : Nat} {e : α}
    (h : l.getD i none = some e) : some e ∈ l := by
  rw [List.getD_eq_getElem?_getD] at h
  cases hi : l[i]? with
  | none => rw [hi] at h; cases h
  | some o =>
    rw [hi] at h
    dsimp only [Option.getD] at h
    subst h
    exact List.getElem?_mem hi

/-- C6: when a write inside a Database mutation method raises, the method
rolls the transaction back — the stored tables are exactly as before the
call — and re-raises the same exception (the returned error is the one the
failing write raised).  Shown for register_child and add_measurement. -/
theorem mutation_error_rollback :
    (∀ (db : DB) (chat : Nat) (cd : ChildData) (today : Int) (now : Nat)
        (oracle : ExecOracle) (e : String),
      (register_child db chat cd today now oracle).2 = .error e →
      (register_child db chat cd today now oracle).1 = db ∧ some e ∈ oracle)
    ∧ (∀ (db : DB) (cid : Nat) (w : ℚ) (ht : Nat) (today : Int) (now : Nat)
        (oracle : ExecOracle) (e : String),
      (add_measurement db cid w ht today now oracle).2 = .error e →
      (add_measurement db cid w ht today now oracle).1 = db ∧ some e ∈ oracle) := by
  constructor
  · intro db chat cd today now oracle e herr
    unfold register_child at herr ⊢
    revert herr
    cases h0 : oracle.getD 0 none with
    | some e0 =>
      intro herr
      injection herr with he
      subst he
      exact ⟨rfl, mem_of_getD_eq_some h0⟩
    | none =>
      cases h1 : oracle.getD 1 none with
      | some e1 =>
        intro herr
        injection herr with he
        subst he
        exact ⟨rfl, mem_of_getD_eq_some h1⟩
      | none =>
        cases h2 : oracle.getD 2 none with
        | some e2 =>
          intro herr
          injection herr with he
          subst he
          exact ⟨rfl, mem_of_getD_eq_some h2⟩
        | none =>
          cases h3 : oracle.getD 3 none with
          | some e3 =>
            intro herr
            injection herr with he
            subst he
            exact ⟨rfl, mem_of_getD_eq_some h3⟩
          | none =>
            intro herr
            cases herr
  · intro db cid w ht today now oracle e herr
    unfold add_measurement at herr ⊢
    revert herr
    cases hrow : db.children.find? (fun r => r.id == cid) with
    | none =>
      intro herr
      cases herr
    | some row =>
      cases h0 : oracle.getD 0 none with
      | some e0 =>
        intro herr
        injection herr with he
        subst he
        exact ⟨rfl, mem_of_getD_eq_some h0⟩
      | none =>
        cases h1 : oracle.getD 1 none with
        | some e1 =>
          intro herr
          injection herr with he
          subst he
          exact ⟨rfl, mem_of_getD_eq_some h1⟩
        | none =>
          intro herr
          cases herr

theorem mutation_error_rollback_witness :
    ((register_child (initDB []) 10 ⟨"A", none, "m", 20000, 40, 0, 3, 50⟩
        100 50 [none, some "boom"]).1 = initDB []
      ∧ some "boom" ∈ [none, some "boom"])
    ∧ ((add_measurement dbFeed 1 4 55 20100 999 [some "disk full"]).1 = dbFeed
      ∧ some "disk full" ∈ [some "disk full"]) :=
  ⟨mutation_error_rollback.1 (initDB []) 10 ⟨"A", none, "m", 20000, 40, 0, 3, 50⟩
      100 50 [none, some "boom"] "boom" rfl,
   mutation_error_rollback.2 dbFeed 1 4 55 20100 999 [some "disk full"]
      "disk full" rfl⟩

theorem daysInMonth_bounds (y m : Int) :
    28 ≤ daysInMonth y m ∧ daysInMonth y m ≤ 31 := by
  unfold daysInMonth
  split
  · split <;> omega
  · split <;> omega

theorem predMonthDay_bounds (y m : Int) :
    28 ≤ predMonthDay y m ∧ predMonthDay y m ≤ 31 := by
  unfold predMonthDay
  split
  · exact daysInMonth_bounds (y - 1) 12
  · exact daysInMonth_bounds y (m - 1)

/-- C10 fails on the code: for birth date 2025-01-31 (a valid date not
after the current date) and current date 2025-03-01, calculate_age
returns (0, 1, -2) — a negative day count, outside the claimed range
0 ≤ days ≤ 30.  The borrow adds the length of the month preceding the
current one (28 days of February), which is shorter than the birth
day-of-month. -/
theorem calculate_age_negative_days_counterexample :
    validDate ⟨2025, 1, 31⟩ ∧ validDate ⟨2025, 3, 1⟩
    ∧ dateLE ⟨2025, 1, 31⟩ ⟨2025, 3, 1⟩
    ∧ calculate_age ⟨2025, 3, 1⟩ ⟨2025, 1, 31⟩ = (0, 1, -2)
    ∧ ¬(0 ≤ (calculate_age ⟨2025, 3, 1⟩ ⟨2025, 1, 31⟩).2.2) := by
  refine ⟨by decide, by decide, by decide, by decide, by decide⟩

/-- C10 amended: for every valid birth date not after the valid current
date, calculate_age returns a triple (years, months, days) with
years ≥ 0, 0 ≤ months ≤ 11 and -2 ≤ days ≤ 30; the lower day bound is -2
rather than 0, reached when the month preceding the current one is
shorter than the birth day-of-month. -/
theorem calculate_age_field_bounds :
    ∀ today birth : PyDate, validDate today → validDate birth →
      dateLE birth today →
      0 ≤ (calculate_age today birth).1
      ∧ 0 ≤ (calculate_age today birth).2.1
      ∧ (calculate_age today birth).2.1 ≤ 11
      ∧ -2 ≤ (calculate_age today birth).2.2
      ∧ (calculate_age today birth).2.2 ≤ 30 := by
  intro t b ht hb hle
  obtain ⟨htm1, htm2, htd1, htd2⟩ := ht
  obtain ⟨hbm1, hbm2, hbd1, hbd2⟩ := hb
  unfold dateLE at hle
  have hdimt := daysInMonth_bounds t.year t.month
  have hdimb := daysInMonth_bounds b.year b.month
  unfold calculate_age
  by_cases hd : t.day - b.day < 0
  · simp only [if_pos hd]
    by_cases hm1 : (t.month == 1) = true
    · simp only [if_pos hm1]
      have hp := predMonthDay_bounds (t.year - 1) ((12 : Int) % 12 + 1)
      by_cases hmn : t.month - b.month - 1 < 0
      · simp only [if_pos hmn]
        refine ⟨?_, ?_, ?_, ?_, ?_⟩ <;> omega
      · simp only [if_neg hmn]
        refine ⟨?_, ?_, ?_, ?_, ?_⟩ <;> omega
    · simp only [if_neg hm1]
      have hp := predMonthDay_bounds t.year ((t.month - 1) % 12 + 1)
      by_cases hmn : t.month - b.month - 1 < 0
      · simp only [if_pos hmn]
        refine ⟨?_, ?_, ?_, ?_, ?_⟩ <;> omega
      · simp only [if_neg hmn]
        refine ⟨?_, ?_, ?_, ?_, ?_⟩ <;> omega
  · simp only [if_neg hd]
    by_cases hmn : t.month - b.month < 0
    · simp only [if_pos hmn]
      refine ⟨?_, ?_, ?_, ?_, ?_⟩ <;> omega
    · simp only [if_neg hmn]
      refine ⟨?_, ?_, ?_, ?_, ?_⟩ <;> omega

theorem calculate_age_field_bounds_witness :
    0 ≤ (calculate_age ⟨2025, 3, 1⟩ ⟨2025, 1, 31⟩).1
    ∧ 0 ≤ (calculate_age ⟨2025, 3, 1⟩ ⟨2025, 1, 31⟩).2.1
    ∧ (calculate_age ⟨2025, 3, 1⟩ ⟨2025, 1, 31⟩).2.1 ≤ 11
    ∧ -2 ≤ (calculate_age ⟨2025, 3, 1⟩ ⟨2025, 1, 31⟩).2.2
    ∧ (calculate_age ⟨2025, 3, 1⟩ ⟨2025, 1, 31⟩).2.2 ≤ 30 :=
  calculate_age_field_bounds ⟨2025, 3, 1⟩ ⟨2025, 1, 31⟩
    (by decide) (by decide) (by decide)
